import Mathlib

/-!
Shallow embedding of the conversation-session core of the web-chating-app
repository (React/Supabase chat client).  The state and handlers below are
translated from:

  * src/components/chat/ChatInterface.tsx  — chat list, focused chat, send,
    counterpart lookup, search filter, realtime-subscription seam;
  * src/components/ChatApp.tsx             — auth-mode state machine, login /
    register / OTP verification / logout handlers, profile derivation;
  * src/components/auth/OTPForm.tsx        — OTP submit guard.

Asynchronous remote calls (Supabase auth and persistence) are modelled by
passing their result in as an `Except String Unit` parameter; the handlers are
otherwise pure state transformers, which matches the single-threaded
event-driven model of the source.  Timestamps (`Date.now()`, `new Date()`) are
modelled as `Nat` milliseconds passed in as a `now` parameter.
-/

namespace ChatCore

/-- Presence status, from the `status` union type in ChatInterface.tsx. -/
inductive Status where
  | online
  | offline
  | away
deriving DecidableEq, Repr

/-- Message kind, from the `type` union in the `Message` interface. -/
inductive MsgType where
  | text
  | image
  | file
deriving DecidableEq, Repr

/-- The `User` interface of ChatInterface.tsx. -/
structure User where
  id : String
  name : String
  email : String
  avatar : Option String
  status : Status
  lastSeen : Option Nat
deriving DecidableEq, Repr

/-- The `Message` interface of ChatInterface.tsx.  `timestamp` is epoch
milliseconds. -/
structure Message where
  id : String
  senderId : String
  senderName : String
  content : String
  timestamp : Nat
  type : MsgType
deriving DecidableEq, Repr

/-- The `Chat` interface of ChatInterface.tsx. -/
structure Chat where
  id : String
  participants : List User
  messages : List Message
  lastMessage : Option Message
  isGroup : Bool
  name : Option String
deriving DecidableEq, Repr

/-- Drop leading whitespace characters from a character list. -/
def dropLeadingWs : List Char → List Char
  | [] => []
  | c :: t => if c.isWhitespace then dropLeadingWs t else c :: t

/-- JS `String.prototype.trim`: removes whitespace from both ends of the
string. -/
def jsTrim (s : String) : String :=
  String.mk (dropLeadingWs (dropLeadingWs s.data.reverse).reverse)

/-- The component state of `ChatInterface` that the send path touches:
`selectedChat`, `chats` and the draft `message`. -/
structure ChatState where
  selectedChat : Option Chat
  chats : List Chat
  message : String
deriving DecidableEq, Repr

/-- `handleSendMessage` from ChatInterface.tsx (lines 143–180).  The source
guard is `if (!message.trim() || !selectedChat) return;`; on pass it builds
`newMessage` with `id = Date.now().toString()`, `senderId = currentUser.id`,
`senderName = currentUser.name`, `content = message.trim()`,
`timestamp = new Date()`, `type = "text"`, appends it to the selected chat,
maps the replacement over `chats` by id, updates `selectedChat` and clears the
draft.  The whole body up to and including these state updates is synchronous
in the source (the only `await` is commented out), so it is one pure step
here. -/
def handleSendMessage (currentUser : User) (now : Nat) (s : ChatState) :
    ChatState :=
  match s.selectedChat with
  | none => s
  | some sel =>
    if jsTrim s.message = "" then s
    else
      let newMessage : Message :=
        { id := toString now
          senderId := currentUser.id
          senderName := currentUser.name
          content := jsTrim s.message
          timestamp := now
          type := MsgType.text }
      let updatedChat : Chat := { sel with messages := sel.messages ++ [newMessage] }
      { selectedChat := some updatedChat
        chats := s.chats.map fun chat => if chat.id = sel.id then updatedChat else chat
        message := "" }

/-- `getChatPartner` from ChatInterface.tsx (lines 182–184):
`chat.participants.find(p => p.id !== currentUser.id)`. -/
def getChatPartner (currentUser : User) (chat : Chat) : Option User :=
  chat.participants.find? fun p => p.id != currentUser.id

/-- Boolean test that the first list occurs at the head of the second. -/
def leadsWith : List Char → List Char → Bool
  | [], _ => true
  | _ :: _, [] => false
  | a :: as, b :: bs => a == b && leadsWith as bs

/-- Boolean test that `needle` occurs as a contiguous substring of the
second list. -/
def hasSub (needle : List Char) : List Char → Bool
  | [] => needle.isEmpty
  | b :: bs => leadsWith needle (b :: bs) || hasSub needle bs

/-- Character-wise lowercasing of a string. -/
def lowerStr (s : String) : String :=
  String.mk (s.data.map Char.toLower)

/-- JS `hay.toLowerCase().includes(needle.toLowerCase())`. -/
def includesCI (hay needle : String) : Bool :=
  hasSub (lowerStr needle).data (lowerStr hay).data

/-- The filter body of `filteredChats` (ChatInterface.tsx lines 186–190):
`partner?.name.toLowerCase().includes(searchQuery.toLowerCase()) ||
 chat.name?.toLowerCase().includes(searchQuery.toLowerCase())`.
A missing partner or a missing chat name makes the corresponding disjunct
falsy (JS optional chaining yields `undefined`). -/
def chatMatches (currentUser : User) (searchQuery : String) (chat : Chat) :
    Bool :=
  (match getChatPartner currentUser chat with
   | some partner => includesCI partner.name searchQuery
   | none => false) ||
  (match chat.name with
   | some n => includesCI n searchQuery
   | none => false)

/-- `filteredChats` from ChatInterface.tsx: `chats.filter(...)`. -/
def filteredChats (currentUser : User) (searchQuery : String)
    (chats : List Chat) : List Chat :=
  chats.filter (chatMatches currentUser searchQuery)

/-- Spec-side statement of the search predicate (spec §4.3 `search`): the
query occurs as a case-insensitive substring of the counterpart display name
or of the conversation name. -/
def specMatch (currentUser : User) (q : String) (c : Chat) : Prop :=
  (∃ p, getChatPartner currentUser c = some p ∧
    (lowerStr q).data <:+: (lowerStr p.name).data) ∨
  (∃ n, c.name = some n ∧ (lowerStr q).data <:+: (lowerStr n).data)

/-- The `AuthMode` union of ChatApp.tsx (`"login" | "register" | "otp" |
"chat"`).  The spec calls the otp mode `verify` and the chat mode
`active`. -/
inductive AuthMode where
  | login
  | register
  | otp
  | chat
deriving DecidableEq, Repr

/-- The Supabase-issued auth user (`User` of supabase-js): provider id plus
an optional email. -/
structure Principal where
  id : String
  email : Option String
deriving DecidableEq, Repr

/-- The `UserProfile` interface of ChatApp.tsx. -/
structure UserProfile where
  id : String
  name : String
  email : String
  avatar : Option String
  status : Status
  lastSeen : Option Nat
  bio : Option String
  location : Option String
  joinedAt : Option Nat
deriving DecidableEq, Repr

/-- The `ChatApp` component state driving the auth-mode machine. -/
structure AppState where
  authMode : AuthMode
  currentUser : Option UserProfile
  user : Option Principal
  session : Option String
  pendingEmail : String
  isLoading : Bool
deriving DecidableEq, Repr

/-- `RegisterData` from ChatApp.tsx. -/
structure RegisterData where
  fullName : String
  email : String
  password : String
deriving DecidableEq, Repr

/-- JS `email.split` at the at sign, taken at index 0: the prefix of the
email before the first at sign. -/
def localPartOf (e : String) : String :=
  String.mk (e.data.takeWhile fun c => c != '@')

/-- `fetchUserProfile` from ChatApp.tsx (lines 79–158).  The Supabase
profile query is commented out in the source, so the function always builds
the default profile: `name` from the email local part via JS `||` (which
also treats an empty local part as missing), `email` defaulted to the empty
string, a dicebear avatar URL seeded by the email (JS template interpolation
prints a missing email as the string "undefined"), `status` online, a fixed
bio, empty location and `joinedAt = new Date()` modelled as `now`. -/
def fetchUserProfile (userId : String) (email : Option String) (now : Nat) :
    UserProfile :=
  { id := userId
    name := match email with
            | some e => if localPartOf e = "" then "User" else localPartOf e
            | none => "User"
    email := email.getD ""
    avatar := some ("https://api.dicebear.com/7.x/avataaars/svg?seed=" ++
      (match email with | some e => e | none => "undefined"))
    status := Status.online
    lastSeen := none
    bio := some "Hello! I\x27m using ChatApp"
    location := some ""
    joinedAt := some now }

/-- `handleLogout` from ChatApp.tsx (lines 281–302).  The result of the
remote `supabase.auth.signOut()` is passed in.  In the source,
`if (error) throw error` jumps to the catch block, which only shows a toast,
so the local clears (`setCurrentUser(null)` etc.) run only on success.
Returns the new state paired with the reported error, if any. -/
def handleLogout (signOutResult : Except String Unit) (s : AppState) :
    AppState × Option String :=
  match signOutResult with
  | Except.ok _ =>
      ({ s with currentUser := none, user := none, session := none,
                authMode := AuthMode.login }, none)
  | Except.error e => (s, some e)

/-- `handleRegister` from ChatApp.tsx (lines 185–219).  The result of the
remote `supabase.auth.signUp` is passed in.  On success the submitted email
is stored as pending and the mode switches to otp; on error the catch block
only reports, leaving mode and pending email unchanged.  `isLoading` is
reset in the `finally` on both paths.  Returns the new state paired with the
reported error, if any. -/
def handleRegister (signUpResult : Except String Unit) (data : RegisterData)
    (s : AppState) : AppState × Option String :=
  match signUpResult with
  | Except.ok _ =>
      ({ s with pendingEmail := data.email, authMode := AuthMode.otp,
                isLoading := false }, none)
  | Except.error e => ({ s with isLoading := false }, some e)

/-- Observable outcome of `handleSubmit` in OTPForm.tsx: whether `onSubmit`
(the remote verify) was invoked, with which code, and whether the local
invalid-OTP toast was shown. -/
structure OTPSubmitResult where
  remoteCall : Option String
  errorToast : Bool
deriving DecidableEq, Repr

/-- `handleSubmit` from OTPForm.tsx (lines 21–44): when the entered OTP is
not exactly 6 characters it shows a destructive toast and returns without
calling `onSubmit`; otherwise it passes the OTP to `onSubmit`. -/
def handleSubmitOTP (otp : String) : OTPSubmitResult :=
  if otp.length ≠ 6 then { remoteCall := none, errorToast := true }
  else { remoteCall := some otp, errorToast := false }

/-- The Verify Email button disabled condition, OTPForm.tsx line 119:
`isLoading || otp.length !== 6`. -/
def verifyButtonDisabled (isLoading : Bool) (otp : String) : Bool :=
  isLoading || (otp.length != 6)

/-- Insertion of an inbound message in timestamp order; an equal timestamp
keeps the already-present messages first, i.e. ties are broken by the
monotonically increasing intake order. -/
def insertByTimestamp (msgs : List Message) (m : Message) : List Message :=
  match msgs with
  | [] => [m]
  | h :: t => if m.timestamp < h.timestamp then m :: h :: t
              else h :: insertByTimestamp t m

/-- Modelled from the spec: `applyRemote` (spec §4.3).  The repository's
live-event intake seam (`setupRealtimeSubscriptions`, ChatInterface.tsx
lines 112–133) only logs the inbound payload — the merge into the
conversation store is left unimplemented under src/ (`// Handle new
message`) — so the merge is modelled from the spec's words: an inbound
message whose id already exists in the conversation is discarded; otherwise
it is inserted in timestamp order with ties broken by intake order. -/
def applyRemote (c : Chat) (m : Message) : Chat :=
  if c.messages.any (fun m0 => m0.id == m.id) then c
  else { c with messages := insertByTimestamp c.messages m }

end ChatCore

open ChatCore

/-- `leadsWith` decides the list-prefix relation. -/
theorem leadsWith_iff (as bs : List Char) :
    leadsWith as bs = true ↔ as <+: bs := by
  induction as generalizing bs with
  | nil => simp [leadsWith]
  | cons a as ih =>
    cases bs with
    | nil => simp [leadsWith]
    | cons b t => simp [leadsWith, List.cons_prefix_cons, ih]

/-- `hasSub` decides the list-infix relation. -/
theorem hasSub_iff (needle hay : List Char) :
    hasSub needle hay = true ↔ needle <:+: hay := by
  induction hay with
  | nil => simp [hasSub, List.isEmpty_iff]
  | cons b bs ih =>
    simp [hasSub, List.infix_cons_iff, leadsWith_iff, ih]

/-- The empty needle is a substring of everything (JS `s.includes("")`). -/
theorem hasSub_nil (l : List Char) : hasSub [] l = true := by
  cases l <;> simp [hasSub, leadsWith]

/-- C1: local echo of send — with non-whitespace content and a focused
conversation, `handleSendMessage` appends exactly one message to the focused
conversation, with `senderId` the local user's id, content the trimmed draft
and timestamp `now`; the append is part of the same synchronous step. -/
theorem sendMessage_local_echo (currentUser : User) (now : Nat) (s : ChatState)
    (sel : Chat) (hsel : s.selectedChat = some sel)
    (hmsg : jsTrim s.message ≠ "") :
    (handleSendMessage currentUser now s).selectedChat =
      some { sel with
              messages := sel.messages ++
                [{ id := toString now
                   senderId := currentUser.id
                   senderName := currentUser.name
                   content := jsTrim s.message
                   timestamp := now
                   type := MsgType.text }] } := by
  unfold handleSendMessage
  rw [hsel]
  simp [hmsg]

/-- Witness for C1 at a concrete state. -/
theorem sendMessage_local_echo_witness :
    (handleSendMessage
        { id := "u1", name := "Me", email := "me@x.com", avatar := none,
          status := Status.online, lastSeen := none }
        1000
        { selectedChat := some
            { id := "c1", participants := [], messages := [], lastMessage := none,
              isGroup := false, name := none },
          chats := [], message := " hi " }).selectedChat =
      some { id := "c1", participants := [],
             messages := [{ id := "1000", senderId := "u1", senderName := "Me",
                            content := "hi", timestamp := 1000,
                            type := MsgType.text }],
             lastMessage := none, isGroup := false, name := none } := by
  have h := sendMessage_local_echo
    { id := "u1", name := "Me", email := "me@x.com", avatar := none,
      status := Status.online, lastSeen := none }
    1000
    { selectedChat := some
        { id := "c1", participants := [], messages := [], lastMessage := none,
          isGroup := false, name := none },
      chats := [], message := " hi " }
    { id := "c1", participants := [], messages := [], lastMessage := none,
      isGroup := false, name := none }
    rfl (by decide)
  simpa using h

/-- C8: send guard — when the draft trims to empty or no chat is focused,
`handleSendMessage` returns the state untouched: no message is built, no
chat changes, and the draft is not cleared. -/
theorem sendMessage_guard (currentUser : User) (now : Nat) (s : ChatState)
    (h : jsTrim s.message = "" ∨ s.selectedChat = none) :
    handleSendMessage currentUser now s = s := by
  unfold handleSendMessage
  rcases h with h | h
  · cases hsel : s.selectedChat with
    | none => rfl
    | some sel => simp [h]
  · rw [h]

/-- Witness for C8 at a concrete state (whitespace-only draft). -/
theorem sendMessage_guard_witness :
    handleSendMessage
        { id := "u1", name := "Me", email := "me@x.com", avatar := none,
          status := Status.online, lastSeen := none }
        1000
        { selectedChat := some
            { id := "c1", participants := [], messages := [], lastMessage := none,
              isGroup := false, name := none },
          chats := [], message := "   " } =
      { selectedChat := some
          { id := "c1", participants := [], messages := [], lastMessage := none,
            isGroup := false, name := none },
        chats := [], message := "   " } :=
  sendMessage_guard _ 1000 _ (Or.inl (by decide))

/-- C9: send frame property — a successful send leaves every chat whose id
differs from the focused chat's id unchanged (same length list, same entry at
every such position). -/
theorem sendMessage_frame (currentUser : User) (now : Nat) (s : ChatState)
    (sel : Chat) (i : Nat) (hsel : s.selectedChat = some sel)
    (hmsg : jsTrim s.message ≠ "")
    (hi : i < s.chats.length)
    (hi2 : i < (handleSendMessage currentUser now s).chats.length)
    (hne : (s.chats.get ⟨i, hi⟩).id ≠ sel.id) :
    (handleSendMessage currentUser now s).chats.length = s.chats.length ∧
    (handleSendMessage currentUser now s).chats.get ⟨i, hi2⟩ =
      s.chats.get ⟨i, hi⟩ := by
  have hstep : (handleSendMessage currentUser now s).chats =
      s.chats.map (fun chat => if chat.id = sel.id then
        { sel with messages := sel.messages ++
            [{ id := toString now, senderId := currentUser.id,
               senderName := currentUser.name, content := jsTrim s.message,
               timestamp := now, type := MsgType.text }] } else chat) := by
    unfold handleSendMessage
    rw [hsel]
    simp [hmsg]
  refine ⟨by simp [hstep], ?_⟩
  simp only [List.get_eq_getElem] at hne ⊢
  simp only [hstep, List.getElem_map]
  rw [if_neg hne]

/-- Witness for C9: concrete two-chat state where the second chat is not
focused and survives the send untouched. -/
theorem sendMessage_frame_witness :
    (handleSendMessage
        { id := "u1", name := "Me", email := "me@x.com", avatar := none,
          status := Status.online, lastSeen := none }
        7
        { selectedChat := some
            { id := "c1", participants := [], messages := [], lastMessage := none,
              isGroup := false, name := none },
          chats := [{ id := "c1", participants := [], messages := [],
                      lastMessage := none, isGroup := false, name := none },
                    { id := "c2", participants := [], messages := [],
                      lastMessage := none, isGroup := false, name := none }],
          message := "hi" }).chats.length =
      ({ selectedChat := some
           { id := "c1", participants := [], messages := [], lastMessage := none,
             isGroup := false, name := none },
         chats := [{ id := "c1", participants := [], messages := [],
                     lastMessage := none, isGroup := false, name := none },
                   { id := "c2", participants := [], messages := [],
                     lastMessage := none, isGroup := false, name := none }],
         message := "hi" } : ChatState).chats.length ∧
    (handleSendMessage
        { id := "u1", name := "Me", email := "me@x.com", avatar := none,
          status := Status.online, lastSeen := none }
        7
        { selectedChat := some
            { id := "c1", participants := [], messages := [], lastMessage := none,
              isGroup := false, name := none },
          chats := [{ id := "c1", participants := [], messages := [],
                      lastMessage := none, isGroup := false, name := none },
                    { id := "c2", participants := [], messages := [],
                      lastMessage := none, isGroup := false, name := none }],
          message := "hi" }).chats.get ⟨1, by decide⟩ =
      ({ selectedChat := some
           { id := "c1", participants := [], messages := [], lastMessage := none,
             isGroup := false, name := none },
         chats := [{ id := "c1", participants := [], messages := [],
                     lastMessage := none, isGroup := false, name := none },
                   { id := "c2", participants := [], messages := [],
                     lastMessage := none, isGroup := false, name := none }],
         message := "hi" } : ChatState).chats.get ⟨1, by decide⟩ :=
  sendMessage_frame
    { id := "u1", name := "Me", email := "me@x.com", avatar := none,
      status := Status.online, lastSeen := none }
    7
    { selectedChat := some
        { id := "c1", participants := [], messages := [], lastMessage := none,
          isGroup := false, name := none },
      chats := [{ id := "c1", participants := [], messages := [],
                  lastMessage := none, isGroup := false, name := none },
                { id := "c2", participants := [], messages := [],
                  lastMessage := none, isGroup := false, name := none }],
      message := "hi" }
    { id := "c1", participants := [], messages := [], lastMessage := none,
      isGroup := false, name := none }
    1 rfl (by decide) (by decide) (by decide) (by decide)

/-- C4 counterexample: for a group conversation the code does not return
none — `getChatPartner` is a plain `find` over participants and ignores
`isGroup`, so a three-party group chat yields the first non-local
participant. -/
theorem getChatPartner_group_counterexample :
    getChatPartner
        { id := "u1", name := "Me", email := "me@x.com", avatar := none,
          status := Status.online, lastSeen := none }
        { id := "g1",
          participants :=
            [{ id := "u1", name := "Me", email := "me@x.com", avatar := none,
               status := Status.online, lastSeen := none },
             { id := "u2", name := "Alice", email := "alice@x.com", avatar := none,
               status := Status.online, lastSeen := none },
             { id := "u3", name := "Bob", email := "bob@x.com", avatar := none,
               status := Status.offline, lastSeen := none }],
          messages := [], lastMessage := none, isGroup := true, name := some "Team" }
      ≠ none ∧
    ({ id := "g1",
       participants :=
         [{ id := "u1", name := "Me", email := "me@x.com", avatar := none,
            status := Status.online, lastSeen := none },
          { id := "u2", name := "Alice", email := "alice@x.com", avatar := none,
            status := Status.online, lastSeen := none },
          { id := "u3", name := "Bob", email := "bob@x.com", avatar := none,
            status := Status.offline, lastSeen := none }],
       messages := [], lastMessage := none, isGroup := true,
       name := some "Team" } : Chat).isGroup = true := by
  constructor
  · decide
  · rfl

/-- C4 amended: `getChatPartner` returns the first participant whose id
differs from the local user's id — any returned participant has a different
id and is a member; a participant set whose members all carry the local id
yields none; a well-formed two-party chat `[local, other]` yields `other`.
The group/malformed clause of the original claim does not hold: `isGroup` is
never consulted.  The function is total, so it cannot throw. -/
theorem getChatPartner_spec (cu : User) (c c2 c3 : Chat) (p a b : User)
    (hp : getChatPartner cu c = some p)
    (hall : ∀ q ∈ c2.participants, q.id = cu.id)
    (hpart : c3.participants = [a, b]) (ha : a.id = cu.id)
    (hb : b.id ≠ cu.id) :
    (p.id ≠ cu.id ∧ p ∈ c.participants) ∧
    getChatPartner cu c2 = none ∧
    getChatPartner cu c3 = some b := by
  refine ⟨⟨?_, List.mem_of_find?_eq_some hp⟩, ?_, ?_⟩
  · have h := List.find?_some hp
    simpa [bne_iff_ne] using h
  · rw [getChatPartner, List.find?_eq_none]
    intro x hx
    simp [hall x hx]
  · rw [getChatPartner, hpart]
    have hat : (a.id != cu.id) = false := by simp [ha]
    have hbt : (b.id != cu.id) = true := by simp [hb]
    simp [List.find?, hat, hbt]

/-- Witness for C4 at concrete chats. -/
theorem getChatPartner_spec_witness :
    ((({ id := "u2", name := "Alice", email := "alice@x.com", avatar := none,
         status := Status.online, lastSeen := none } : User).id ≠ "u1" ∧
      ({ id := "u2", name := "Alice", email := "alice@x.com", avatar := none,
         status := Status.online, lastSeen := none } : User) ∈
        ({ id := "c1",
           participants :=
             [{ id := "u1", name := "Me", email := "me@x.com", avatar := none,
                status := Status.online, lastSeen := none },
              { id := "u2", name := "Alice", email := "alice@x.com", avatar := none,
                status := Status.online, lastSeen := none }],
           messages := [], lastMessage := none, isGroup := false,
           name := none } : Chat).participants) ∧
     getChatPartner
         { id := "u1", name := "Me", email := "me@x.com", avatar := none,
           status := Status.online, lastSeen := none }
         { id := "c2",
           participants :=
             [{ id := "u1", name := "Me", email := "me@x.com", avatar := none,
                status := Status.online, lastSeen := none }],
           messages := [], lastMessage := none, isGroup := false, name := none }
       = none ∧
     getChatPartner
         { id := "u1", name := "Me", email := "me@x.com", avatar := none,
           status := Status.online, lastSeen := none }
         { id := "c1",
           participants :=
             [{ id := "u1", name := "Me", email := "me@x.com", avatar := none,
                status := Status.online, lastSeen := none },
              { id := "u2", name := "Alice", email := "alice@x.com", avatar := none,
                status := Status.online, lastSeen := none }],
           messages := [], lastMessage := none, isGroup := false, name := none }
       = some { id := "u2", name := "Alice", email := "alice@x.com",
                avatar := none, status := Status.online, lastSeen := none }) :=
  getChatPartner_spec
    { id := "u1", name := "Me", email := "me@x.com", avatar := none,
      status := Status.online, lastSeen := none }
    { id := "c1",
      participants :=
        [{ id := "u1", name := "Me", email := "me@x.com", avatar := none,
           status := Status.online, lastSeen := none },
         { id := "u2", name := "Alice", email := "alice@x.com", avatar := none,
           status := Status.online, lastSeen := none }],
      messages := [], lastMessage := none, isGroup := false, name := none }
    { id := "c2",
      participants :=
        [{ id := "u1", name := "Me", email := "me@x.com", avatar := none,
           status := Status.online, lastSeen := none }],
      messages := [], lastMessage := none, isGroup := false, name := none }
    { id := "c1",
      participants :=
        [{ id := "u1", name := "Me", email := "me@x.com", avatar := none,
           status := Status.online, lastSeen := none },
         { id := "u2", name := "Alice", email := "alice@x.com", avatar := none,
           status := Status.online, lastSeen := none }],
      messages := [], lastMessage := none, isGroup := false, name := none }
    { id := "u2", name := "Alice", email := "alice@x.com", avatar := none,
      status := Status.online, lastSeen := none }
    { id := "u1", name := "Me", email := "me@x.com", avatar := none,
      status := Status.online, lastSeen := none }
    { id := "u2", name := "Alice", email := "alice@x.com", avatar := none,
      status := Status.online, lastSeen := none }
    (by decide) (by decide) rfl rfl (by decide)

/-- JS `s.includes("")` is always true, so the empty query matches any
existing name. -/
theorem includesCI_empty (s : String) : includesCI s "" = true := by
  have h : (lowerStr "").data = [] := rfl
  rw [includesCI, h]
  exact hasSub_nil _

/-- The code-side filter body agrees with the spec-side search predicate. -/
theorem chatMatches_iff (cu : User) (q : String) (c : Chat) :
    chatMatches cu q c = true ↔ specMatch cu q c := by
  unfold chatMatches specMatch
  cases hgp : getChatPartner cu c with
  | none =>
    cases hn : c.name with
    | none => simp
    | some n => simp [includesCI, hasSub_iff]
  | some p =>
    cases hn : c.name with
    | none => simp [includesCI, hasSub_iff]
    | some n => simp [includesCI, hasSub_iff]

/-- C5 counterexample: the empty query does not return all conversations —
a chat with no counterpart (participants are only the local user) and no
name is filtered out even when the query is empty. -/
theorem filteredChats_emptyQuery_counterexample :
    filteredChats
        { id := "u1", name := "Me", email := "me@x.com", avatar := none,
          status := Status.online, lastSeen := none }
        ""
        [{ id := "c1",
           participants :=
             [{ id := "u1", name := "Me", email := "me@x.com", avatar := none,
                status := Status.online, lastSeen := none }],
           messages := [], lastMessage := none, isGroup := false, name := none }]
      ≠
      [{ id := "c1",
         participants :=
           [{ id := "u1", name := "Me", email := "me@x.com", avatar := none,
              status := Status.online, lastSeen := none }],
         messages := [], lastMessage := none, isGroup := false,
         name := none }] := by
  decide

/-- C5 amended: `filteredChats` is an order-preserving sub-selection of the
store, a chat is kept exactly when the query is a case-insensitive substring
of its counterpart display name or of its conversation name, and the empty
query returns all conversations except those having neither a counterpart
nor a name (rather than all conversations unconditionally). -/
theorem filteredChats_spec (cu : User) (q : String) (chats : List Chat)
    (c : Chat) :
    List.Sublist (filteredChats cu q chats) chats ∧
    (c ∈ filteredChats cu q chats ↔ c ∈ chats ∧ specMatch cu q c) ∧
    filteredChats cu "" chats =
      chats.filter (fun c2 => (getChatPartner cu c2).isSome || c2.name.isSome) := by
  refine ⟨?_, ?_, ?_⟩
  · unfold filteredChats
    exact List.filter_sublist chats
  · rw [filteredChats, List.mem_filter]
    exact and_congr_right fun _ => chatMatches_iff cu q c
  · unfold filteredChats
    apply List.filter_congr
    intro x _
    unfold chatMatches
    cases hgp : getChatPartner cu x <;> cases hn : x.name <;>
      simp [includesCI_empty]

/-- C2 counterexample: a failed remote sign-out does not tear the session
down — the catch block only reports, so the app stays in the chat mode with
the Principal and Profile still set, contradicting the unconditional
teardown claim. -/
theorem logout_failure_counterexample :
    ((handleLogout (Except.error "network error")
        { authMode := AuthMode.chat,
          currentUser := some
            { id := "u1", name := "a", email := "a@x.com", avatar := none,
              status := Status.online, lastSeen := none, bio := none,
              location := none, joinedAt := none },
          user := some { id := "u1", email := some "a@x.com" },
          session := some "tok",
          pendingEmail := "", isLoading := false }).1).authMode ≠
      AuthMode.login ∧
    ((handleLogout (Except.error "network error")
        { authMode := AuthMode.chat,
          currentUser := some
            { id := "u1", name := "a", email := "a@x.com", avatar := none,
              status := Status.online, lastSeen := none, bio := none,
              location := none, joinedAt := none },
          user := some { id := "u1", email := some "a@x.com" },
          session := some "tok",
          pendingEmail := "", isLoading := false }).1).currentUser ≠ none := by
  constructor
  · decide
  · decide

/-- C2 amended: logout clears `currentUser`, `user` and `session` and
returns to the login mode when the remote sign-out succeeds; when the remote
sign-out fails, the error is reported but the local state is left entirely
unchanged — the teardown is conditional on remote success, not
unconditional. -/
theorem handleLogout_spec (s s2 : AppState) (e : String) :
    (handleLogout (Except.ok ()) s).1.authMode = AuthMode.login ∧
    (handleLogout (Except.ok ()) s).1.currentUser = none ∧
    (handleLogout (Except.ok ()) s).1.user = none ∧
    (handleLogout (Except.ok ()) s).1.session = none ∧
    (handleLogout (Except.ok ()) s).2 = none ∧
    (handleLogout (Except.error e) s2).1 = s2 ∧
    (handleLogout (Except.error e) s2).2 = some e :=
  ⟨rfl, rfl, rfl, rfl, rfl, rfl, rfl⟩

/-- C6: an accepted registration stores the submitted email as pending and
moves the mode to the OTP verification mode without touching the Principal
or the Profile; a rejected registration leaves the mode in register and the
pending email unchanged. -/
theorem handleRegister_spec (data : RegisterData) (s s2 : AppState)
    (e : String) (h2 : s2.authMode = AuthMode.register) :
    (handleRegister (Except.ok ()) data s).1.pendingEmail = data.email ∧
    (handleRegister (Except.ok ()) data s).1.authMode = AuthMode.otp ∧
    (handleRegister (Except.ok ()) data s).1.user = s.user ∧
    (handleRegister (Except.ok ()) data s).1.currentUser = s.currentUser ∧
    (handleRegister (Except.error e) data s2).1.authMode =
      AuthMode.register ∧
    (handleRegister (Except.error e) data s2).1.pendingEmail =
      s2.pendingEmail :=
  ⟨rfl, rfl, rfl, rfl, h2, rfl⟩

/-- Witness for C6: the spec scenario — registering Jane Doe with
jane@x.com succeeds, pendingEmail becomes jane@x.com and the mode becomes
the OTP mode; with a rejection the mode stays register. -/
theorem handleRegister_spec_witness :
    (handleRegister (Except.ok ())
        { fullName := "Jane Doe", email := "jane@x.com", password := "secret1" }
        { authMode := AuthMode.register, currentUser := none, user := none,
          session := none, pendingEmail := "", isLoading := true }).1.pendingEmail =
      ({ fullName := "Jane Doe", email := "jane@x.com",
         password := "secret1" } : RegisterData).email ∧
    (handleRegister (Except.ok ())
        { fullName := "Jane Doe", email := "jane@x.com", password := "secret1" }
        { authMode := AuthMode.register, currentUser := none, user := none,
          session := none, pendingEmail := "", isLoading := true }).1.authMode =
      AuthMode.otp ∧
    (handleRegister (Except.ok ())
        { fullName := "Jane Doe", email := "jane@x.com", password := "secret1" }
        { authMode := AuthMode.register, currentUser := none, user := none,
          session := none, pendingEmail := "", isLoading := true }).1.user =
      ({ authMode := AuthMode.register, currentUser := none, user := none,
         session := none, pendingEmail := "", isLoading := true } : AppState).user ∧
    (handleRegister (Except.ok ())
        { fullName := "Jane Doe", email := "jane@x.com", password := "secret1" }
        { authMode := AuthMode.register, currentUser := none, user := none,
          session := none, pendingEmail := "", isLoading := true }).1.currentUser =
      ({ authMode := AuthMode.register, currentUser := none, user := none,
         session := none, pendingEmail := "",
         isLoading := true } : AppState).currentUser ∧
    (handleRegister (Except.error "email already registered")
        { fullName := "Jane Doe", email := "jane@x.com", password := "secret1" }
        { authMode := AuthMode.register, currentUser := none, user := none,
          session := none, pendingEmail := "", isLoading := true }).1.authMode =
      AuthMode.register ∧
    (handleRegister (Except.error "email already registered")
        { fullName := "Jane Doe", email := "jane@x.com", password := "secret1" }
        { authMode := AuthMode.register, currentUser := none, user := none,
          session := none, pendingEmail := "", isLoading := true }).1.pendingEmail =
      ({ authMode := AuthMode.register, currentUser := none, user := none,
         session := none, pendingEmail := "",
         isLoading := true } : AppState).pendingEmail :=
  handleRegister_spec
    { fullName := "Jane Doe", email := "jane@x.com", password := "secret1" }
    { authMode := AuthMode.register, currentUser := none, user := none,
      session := none, pendingEmail := "", isLoading := true }
    { authMode := AuthMode.register, currentUser := none, user := none,
      session := none, pendingEmail := "", isLoading := true }
    "email already registered" rfl

/-- C7 counterexample: with the email "@x.com" (present, but with an empty
local part) the derived display name is "User", not the local part "" — the
fallback also fires on an empty local part, not only on an absent email. -/
theorem profileName_localPart_counterexample :
    (fetchUserProfile "u1" (some "@x.com") 0).name = "User" ∧
    localPartOf "@x.com" = "" ∧ ("User" : String) ≠ "" := by
  refine ⟨?_, ?_, ?_⟩
  · decide
  · decide
  · decide

/-- C7 amended: profile derivation is deterministic — displayName and
avatarRef depend only on the principal's email, not on the invocation time
or the user id — and displayName is the local part of the email when that
local part is non-empty, with the fallback "User" both when the email is
absent and (via JS falsiness) when the local part is empty; avatarRef is a
deterministic function of the email alone. -/
theorem fetchUserProfile_spec (uid uid2 : String) (email : Option String)
    (n1 n2 : Nat) (e e2 : String) (he : localPartOf e ≠ "")
    (he2 : localPartOf e2 = "") :
    (fetchUserProfile uid email n1).name =
      (fetchUserProfile uid2 email n2).name ∧
    (fetchUserProfile uid email n1).avatar =
      (fetchUserProfile uid2 email n2).avatar ∧
    (fetchUserProfile uid (some e) n1).name = localPartOf e ∧
    (fetchUserProfile uid (some e2) n1).name = "User" ∧
    (fetchUserProfile uid none n1).name = "User" := by
  refine ⟨rfl, rfl, ?_, ?_, rfl⟩
  · simp [fetchUserProfile, he]
  · simp [fetchUserProfile, he2]

/-- Witness for C7: the spec scenario email a@x.com gives display name "a";
the email "@x.com" gives "User". -/
theorem fetchUserProfile_spec_witness :
    (fetchUserProfile "u1" (some "a@x.com") 0).name =
      (fetchUserProfile "u2" (some "a@x.com") 1).name ∧
    (fetchUserProfile "u1" (some "a@x.com") 0).avatar =
      (fetchUserProfile "u2" (some "a@x.com") 1).avatar ∧
    (fetchUserProfile "u1" (some "a@x.com") 0).name = localPartOf "a@x.com" ∧
    (fetchUserProfile "u1" (some "@x.com") 0).name = "User" ∧
    (fetchUserProfile "u1" (none : Option String) 0).name = "User" :=
  fetchUserProfile_spec "u1" "u2" (some "a@x.com") 0 1 "a@x.com" "@x.com"
    (by decide) (by decide)

/-- C10: the OTP submit handler invokes the remote verify exactly when the
entered code has 6 characters; any other length is rejected locally with an
error toast and no remote call, so under the length-6 precondition (also
enforced by the disabled submit button) the rejection branch is
unreachable. -/
theorem handleSubmitOTP_spec (otp otp6 otpBad : String)
    (h6 : otp6.length = 6) (hb : otpBad.length ≠ 6) :
    ((handleSubmitOTP otp).remoteCall.isSome ↔ otp.length = 6) ∧
    handleSubmitOTP otp6 = { remoteCall := some otp6, errorToast := false } ∧
    handleSubmitOTP otpBad = { remoteCall := none, errorToast := true } ∧
    verifyButtonDisabled false otp6 = false ∧
    verifyButtonDisabled false otpBad = true := by
  refine ⟨?_, ?_, ?_, ?_, ?_⟩
  · unfold handleSubmitOTP
    by_cases h : otp.length = 6 <;> simp [h]
  · simp [handleSubmitOTP, h6]
  · simp [handleSubmitOTP, hb]
  · simp [verifyButtonDisabled, h6]
  · simp [verifyButtonDisabled, hb]

/-- Witness for C10 at the codes "123456" and "12345". -/
theorem handleSubmitOTP_spec_witness :
    ((handleSubmitOTP "123456").remoteCall.isSome ↔
      ("123456" : String).length = 6) ∧
    handleSubmitOTP "123456" =
      { remoteCall := some "123456", errorToast := false } ∧
    handleSubmitOTP "12345" = { remoteCall := none, errorToast := true } ∧
    verifyButtonDisabled false "123456" = false ∧
    verifyButtonDisabled false "12345" = true :=
  handleSubmitOTP_spec "123456" "123456" "12345" (by decide) (by decide)

/-- After inserting a message, a message with its id is present. -/
theorem any_id_insertByTimestamp (msgs : List Message) (m : Message) :
    (insertByTimestamp msgs m).any (fun m0 => m0.id == m.id) = true := by
  induction msgs with
  | nil => simp [insertByTimestamp]
  | cons h t ih =>
    unfold insertByTimestamp
    by_cases hlt : m.timestamp < h.timestamp
    · simp [hlt]
    · simp [hlt, ih]

/-- C3: idempotent remote apply — applying the same inbound message (same
id) to a conversation twice yields exactly the message sequence of applying
it once, and an inbound message whose id already exists in the conversation
is discarded rather than duplicated. -/
theorem applyRemote_idempotent (c c2 : Chat) (m m2 : Message)
    (h : c2.messages.any (fun m0 => m0.id == m2.id) = true) :
    applyRemote (applyRemote c m) m = applyRemote c m ∧
    applyRemote c2 m2 = c2 := by
  constructor
  · by_cases hc : c.messages.any (fun m0 => m0.id == m.id) = true
    · simp [applyRemote, hc]
    · have h1 : applyRemote c m =
          { c with messages := insertByTimestamp c.messages m } := by
        simp [applyRemote, hc]
      rw [h1]
      simp [applyRemote, any_id_insertByTimestamp]
  · simp [applyRemote, h]

/-- Witness for C3: a concrete fresh message applied twice, and a concrete
duplicate-id message discarded. -/
theorem applyRemote_idempotent_witness :
    applyRemote
        (applyRemote
          { id := "c1", participants := [], messages := [], lastMessage := none,
            isGroup := false, name := none }
          { id := "m1", senderId := "u2", senderName := "Alice",
            content := "hello", timestamp := 5, type := MsgType.text })
        { id := "m1", senderId := "u2", senderName := "Alice",
          content := "hello", timestamp := 5, type := MsgType.text } =
      applyRemote
        { id := "c1", participants := [], messages := [], lastMessage := none,
          isGroup := false, name := none }
        { id := "m1", senderId := "u2", senderName := "Alice",
          content := "hello", timestamp := 5, type := MsgType.text } ∧
    applyRemote
        { id := "c2", participants := [],
          messages := [{ id := "m1", senderId := "u2", senderName := "Alice",
                         content := "hello", timestamp := 5,
                         type := MsgType.text }],
          lastMessage := none, isGroup := false, name := none }
        { id := "m1", senderId := "u2", senderName := "Alice",
          content := "hello", timestamp := 5, type := MsgType.text } =
      { id := "c2", participants := [],
        messages := [{ id := "m1", senderId := "u2", senderName := "Alice",
                       content := "hello", timestamp := 5,
                       type := MsgType.text }],
        lastMessage := none, isGroup := false, name := none } :=
  applyRemote_idempotent
    { id := "c1", participants := [], messages := [], lastMessage := none,
      isGroup := false, name := none }
    { id := "c2", participants := [],
      messages := [{ id := "m1", senderId := "u2", senderName := "Alice",
                     content := "hello", timestamp := 5,
                     type := MsgType.text }],
      lastMessage := none, isGroup := false, name := none }
    { id := "m1", senderId := "u2", senderName := "Alice",
      content := "hello", timestamp := 5, type := MsgType.text }
    { id := "m1", senderId := "u2", senderName := "Alice",
      content := "hello", timestamp := 5, type := MsgType.text }
    (by decide)
